import Mathlib

/-!
Shallow embedding of the sensor evaluation daemon core
(src/python_modules/dagster/dagster/_daemon/sensor.py).

Timestamps are modelled as rationals, machine floats only enter through
comparisons, subtraction and max, which rationals model exactly for the
properties below.  Python truthiness of optional strings, optional numbers
and lists is made explicit through the optStrTruthy / optRatTruthy /
optNatTruthy helpers (None, 0, 0.0 and the empty string are falsy).

The tick builder methods (with_status, with_cursor, with_run_info,
with_run_requests, unsubmitted_run_ids_with_requests, ...) live in
dagster._core.scheduler.instigation, outside the given source tree; they
are modelled from the spec, section 3 (Tick data model), as recorded in
their doc comments.  Everything else is translated from sensor.py.
-/

/-- Status of an instigator tick (TickStatus in the source). -/
inductive TickStatus
  | started
  | skipped
  | success
  | failure
deriving DecidableEq

/-- Opaque serialized error info attached to failed ticks. -/
structure SerializableErrorInfo where
  message : String
deriving DecidableEq

/-- FINISHED_TICK_STATES from sensor.py line 86. -/
def FINISHED_TICK_STATES : List TickStatus :=
  [TickStatus.skipped, TickStatus.success, TickStatus.failure]

/-- MAX_TIME_TO_RESUME_TICK_SECONDS = 60 * 60 * 24 (sensor.py line 80). -/
def MAX_TIME_TO_RESUME_TICK_SECONDS : ℚ := 60 * 60 * 24

/-- MAX_FAILURE_RESUBMISSION_RETRIES = 1 (sensor.py line 84). -/
def MAX_FAILURE_RESUBMISSION_RETRIES : Nat := 1

/-- Python truthiness of an optional string: None and the empty string are falsy. -/
def optStrTruthy : Option String → Bool
  | none => false
  | some s => s != ""

/-- Python truthiness of an optional numeric timestamp: None and 0 are falsy. -/
def optRatTruthy : Option ℚ → Bool
  | none => false
  | some q => q != 0

/-- Python truthiness of an optional integer: None and 0 are falsy. -/
def optNatTruthy : Option Nat → Bool
  | none => false
  | some n => n != 0

/-- A run request emitted by sensor user code.  Only the attributes the daemon
core inspects are kept: the run key, the asset selection (rewritten by stale
resolution), the stale_assets_only flag, and whether an asset_graph_subset is
present (RunRequest.requires_backfill_daemon in the source). -/
structure RunRequest where
  run_key : Option String
  asset_selection : List String
  stale_assets_only : Bool
  has_asset_graph_subset : Bool
deriving DecidableEq

/-- requires_backfill_daemon(): true iff the request carries an asset_graph_subset. -/
def RunRequest.requires_backfill_daemon (r : RunRequest) : Bool :=
  r.has_asset_graph_subset

/-- The persisted data of one tick (TickData in the source, spec section 3).
Inert identity fields (instigator origin id, name, selector id, log keys,
dynamic partition results) carry no logic relevant here and are omitted. -/
structure TickData where
  status : TickStatus
  timestamp : ℚ
  end_timestamp : Option ℚ
  run_ids : List String
  run_keys : List String
  run_requests : List RunRequest
  reserved_run_ids : List String
  failure_count : Nat
  error : Option SerializableErrorInfo
  cursor : Option String
  skip_reason : Option String
  origin_run_id : Option String
deriving DecidableEq

/-- Modelled from the spec: TickData.with_status copies the tick data with a
new status; the remaining arguments model Python keyword arguments, where the
outer none means the keyword was not passed and the field keeps its value. -/
def TickData.with_status (d : TickData) (status : TickStatus)
    (error : Option (Option SerializableErrorInfo))
    (failure_count : Option Nat)
    (timestamp : Option ℚ)
    (end_timestamp : Option (Option ℚ)) : TickData :=
  { d with
    status := status
    error := error.getD d.error
    failure_count := failure_count.getD d.failure_count
    timestamp := timestamp.getD d.timestamp
    end_timestamp := end_timestamp.getD d.end_timestamp }

/-- Modelled from the spec: TickData.with_reason records a skip reason. -/
def TickData.with_reason (d : TickData) (skip_reason : String) : TickData :=
  { d with skip_reason := some skip_reason }

/-- Modelled from the spec: TickData.with_cursor records a cursor. -/
def TickData.with_cursor (d : TickData) (cursor : String) : TickData :=
  { d with cursor := some cursor }

/-- Modelled from the spec: TickData.with_origin_run records an origin run id. -/
def TickData.with_origin_run (d : TickData) (origin_run_id : String) : TickData :=
  { d with origin_run_id := some origin_run_id }

/-- Modelled from the spec: TickData.with_run_info appends the submitted run id
and run key to the append-only parallel sequences (spec section 3, run_ids and
run_keys hold the submitted work; an absent value is not appended). -/
def TickData.with_run_info (d : TickData) (run_id : Option String)
    (run_key : Option String) : TickData :=
  { d with
    run_ids := d.run_ids ++ run_id.toList
    run_keys := d.run_keys ++ run_key.toList }

/-- Modelled from the spec: TickData.with_run_requests stores the accepted run
requests, the ids reserved for them, and the new cursor. -/
def TickData.with_run_requests (d : TickData) (run_requests : List RunRequest)
    (reserved_run_ids : List String) (cursor : Option String) : TickData :=
  { d with
    run_requests := run_requests
    reserved_run_ids := reserved_run_ids
    cursor := cursor }

/-- Modelled from the spec: the derived view pairing each reserved run id with
its request, keeping the pairs whose run has not been recorded in run_ids. -/
def TickData.unsubmitted_run_ids_with_requests (d : TickData) :
    List (String × RunRequest) :=
  (d.reserved_run_ids.zip d.run_requests).filter (fun p => decide (p.1 ∉ d.run_ids))

/-- The per-sensor persisted instigator data (SensorInstigatorData). -/
structure SensorInstigatorData where
  last_tick_timestamp : Option ℚ
  last_run_key : Option String
  min_interval : Option Nat
  cursor : Option String
  last_tick_start_timestamp : Option ℚ
  last_sensor_start_timestamp : Option ℚ
  sensor_type : String
  last_tick_success_timestamp : Option ℚ
deriving DecidableEq

/-- is_under_min_interval (sensor.py lines 1189-1204).  The instigator data of
the state and the sensor's min_interval_seconds are passed directly; Python
falsiness of absent or zero values is preserved, and the or-0 defaults inside
the max mirror lines 1200-1203. -/
def is_under_min_interval (instigator_data : Option SensorInstigatorData)
    (min_interval_seconds : Option Nat) (now : ℚ) : Bool :=
  match instigator_data with
  | none => false
  | some d =>
    if !optRatTruthy d.last_tick_start_timestamp && !optRatTruthy d.last_tick_timestamp then
      false
    else if !optNatTruthy min_interval_seconds then
      false
    else
      decide (now - max (d.last_tick_timestamp.getD 0) (d.last_tick_start_timestamp.getD 0)
        < (min_interval_seconds.getD 0 : ℚ))

/-- SensorLaunchContext.update_state (sensor.py lines 148-173): the status is
always applied (a TickStatus enum member is always truthy); skip_reason,
cursor and origin_run_id are applied only when truthy; the remaining keyword
arguments (error, failure_count) are forwarded to with_status. -/
def update_state (tick : TickData) (status : TickStatus)
    (skip_reason : Option String) (cursor : Option String)
    (origin_run_id : Option String)
    (error : Option (Option SerializableErrorInfo))
    (failure_count : Option Nat) : TickData :=
  let t := tick.with_status status error failure_count none none
  let t := if optStrTruthy skip_reason then t.with_reason (skip_reason.getD "") else t
  let t := if optStrTruthy cursor then t.with_cursor (cursor.getD "") else t
  let t := if optStrTruthy origin_run_id then t.with_origin_run (origin_run_id.getD "") else t
  t

/-- Classification of the exception with which the SensorLaunchContext scope
exits (sensor.py lines 255-288): no exception, KeyboardInterrupt,
GeneratorExit, a user-code-server-unreachable error
(DagsterUserCodeUnreachableError or DagsterCodeLocationLoadError), or any
other exception. -/
inductive ExitExc
  | noExc
  | keyboardInterrupt
  | generatorExit
  | userCodeUnreachable
  | otherError
deriving DecidableEq

/-- Result of SensorLaunchContext.__exit__: the tick state after the close and
whether the flush (self._write, sensor.py line 288) was reached. -/
structure ExitResult where
  tick : TickData
  flushed : Bool
deriving DecidableEq

/-- SensorLaunchContext.__exit__ (sensor.py lines 255-298).  KeyboardInterrupt
returns before the flush (line 262); GeneratorExit skips the error handling
but still flushes; an unreachable-user-code-server error records FAILURE
keeping the prior failure_count (line 280); any other exception records
FAILURE with failure_count incremented (line 285).  error_data stands for the
serialized exception info captured by DaemonErrorCapture. -/
def sensor_launch_context_exit (exc : ExitExc) (error_data : SerializableErrorInfo)
    (tick : TickData) : ExitResult :=
  match exc with
  | ExitExc.keyboardInterrupt => { tick := tick, flushed := false }
  | ExitExc.generatorExit => { tick := tick, flushed := true }
  | ExitExc.noExc => { tick := tick, flushed := true }
  | ExitExc.userCodeUnreachable =>
    { tick := update_state tick TickStatus.failure none none none
        (some (some error_data)) (some tick.failure_count)
      flushed := true }
  | ExitExc.otherError =>
    { tick := update_state tick TickStatus.failure none none none
        (some (some error_data)) (some (tick.failure_count + 1))
      flushed := true }

/-- The instigator-state update performed by SensorLaunchContext._write when
the tick is in a finished state (sensor.py lines 210-250).  state_data is the
instigator data of the state re-read at close time; the result is the
SensorInstigatorData written back, or none when state_data is absent (in that
case line 233 dereferences a missing attribute and the write never happens). -/
def write_instigator_data (tick : TickData) (should_update_cursor_on_failure : Bool)
    (state_data : Option SensorInstigatorData) (min_interval_seconds : Option Nat)
    (sensor_type : String) (now : ℚ) : Option SensorInstigatorData :=
  let should_update_cursor_and_last_run_key :=
    (tick.status != TickStatus.failure) || should_update_cursor_on_failure
  let last_run_key0 := state_data.bind (fun d => d.last_run_key)
  let last_sensor_start_timestamp := state_data.bind (fun d => d.last_sensor_start_timestamp)
  let last_run_key :=
    if !tick.run_keys.isEmpty && should_update_cursor_and_last_run_key then
      tick.run_keys.getLast?
    else last_run_key0
  let cursor :=
    if should_update_cursor_and_last_run_key then tick.cursor
    else state_data.bind (fun d => d.cursor)
  match state_data with
  | none => none
  | some sd =>
    some
      { last_tick_timestamp := some tick.timestamp
        last_run_key := last_run_key
        min_interval := min_interval_seconds
        cursor := cursor
        last_tick_start_timestamp :=
          some (max tick.timestamp (sd.last_tick_start_timestamp.getD 0))
        last_sensor_start_timestamp := last_sensor_start_timestamp
        sensor_type := sensor_type
        last_tick_success_timestamp :=
          if tick.status = TickStatus.failure then none else some now }

/-- A persisted tick: the tick id assigned by the instance store plus its data. -/
structure InstigatorTick where
  tick_id : Nat
  tick_data : TickData
deriving DecidableEq

/-- The TickData built for a brand-new tick (sensor.py lines 549-558): status
STARTED, timestamp the evaluation timestamp, every other field at its default. -/
def freshTickData (evaluation_timestamp : ℚ) : TickData :=
  { status := TickStatus.started
    timestamp := evaluation_timestamp
    end_timestamp := none
    run_ids := []
    run_keys := []
    run_requests := []
    reserved_run_ids := []
    failure_count := 0
    error := none
    cursor := none
    skip_reason := none
    origin_run_id := none }

/-- Result of _get_evaluation_tick: the tick returned for evaluation, the
dangling STARTED tick persisted as SKIPPED via update_tick (if any), and the
TickData handed to instance.create_tick (if a new tick was created). -/
structure SelectorResult where
  returned : InstigatorTick
  dangling_skipped : Option InstigatorTick
  created : Option TickData
deriving DecidableEq

/-- _get_evaluation_tick (sensor.py lines 483-558).  most_recent_tick is the
result of instance.get_ticks(origin_id, selector_id, limit=1); new_tick_id is
the id the instance store assigns in instance.create_tick. -/
def get_evaluation_tick (instigator_data : Option SensorInstigatorData)
    (most_recent_tick : Option InstigatorTick) (evaluation_timestamp : ℚ)
    (new_tick_id : Nat) : SelectorResult :=
  let potentially_interrupted_tick : Option InstigatorTick :=
    match instigator_data with
    | some d =>
      if optRatTruthy d.last_tick_success_timestamp then none else most_recent_tick
    | none => most_recent_tick
  match potentially_interrupted_tick with
  | some t =>
    let has_unrequested_runs :=
      decide (0 < t.tick_data.unsubmitted_run_ids_with_requests.length)
    if t.tick_data.status = TickStatus.started then
      if decide (evaluation_timestamp - t.tick_data.timestamp
            ≤ MAX_TIME_TO_RESUME_TICK_SECONDS) && has_unrequested_runs then
        { returned := t, dangling_skipped := none, created := none }
      else
        let skipped_tick : InstigatorTick :=
          { t with tick_data := t.tick_data.with_status TickStatus.skipped none none none none }
        { returned := { tick_id := new_tick_id, tick_data := freshTickData evaluation_timestamp }
          dangling_skipped := some skipped_tick
          created := some (freshTickData evaluation_timestamp) }
    else if t.tick_data.status = TickStatus.failure
        && decide (t.tick_data.failure_count ≤ MAX_FAILURE_RESUBMISSION_RETRIES)
        && has_unrequested_runs then
      let retry_data := t.tick_data.with_status TickStatus.started (some none) none
        (some evaluation_timestamp) (some none)
      { returned := { tick_id := new_tick_id, tick_data := retry_data }
        dangling_skipped := none
        created := some retry_data }
    else
      { returned := { tick_id := new_tick_id, tick_data := freshTickData evaluation_timestamp }
        dangling_skipped := none
        created := some (freshTickData evaluation_timestamp) }
  | none =>
    { returned := { tick_id := new_tick_id, tick_data := freshTickData evaluation_timestamp }
      dangling_skipped := none
      created := some (freshTickData evaluation_timestamp) }

/-- Run status (DagsterRunStatus); only NOT_STARTED is distinguished by the
daemon core, the remaining values stand for every launched or finished state. -/
inductive DagsterRunStatus
  | not_started
  | starting
  | started
  | success
  | failure
  | canceled
deriving DecidableEq

/-- A run as seen by the daemon core: its id and status. -/
structure DagsterRun where
  run_id : String
  status : DagsterRunStatus
deriving DecidableEq

/-- Outcome of _get_or_create_sensor_run: a SkippedSensorRun record, the
pre-existing run returned for a launch retry, or a freshly created run. -/
inductive GetOrCreateRunResult
  | skipped_run (run_key : Option String) (existing_run : DagsterRun)
  | existing (run : DagsterRun)
  | created (run : DagsterRun)
deriving DecidableEq

/-- _get_or_create_sensor_run (sensor.py lines 1255-1284).  existing_run_by_key
is existing_runs_by_key.get(run_request.run_key); run_by_id is
instance.get_run_by_id(run_id); the Python or of the two lookups keeps the
first truthy value.  A created run carries the reserved run_id and status
NOT_STARTED (as passed to instance.create_run in _create_sensor_run). -/
def get_or_create_sensor_run (existing_run_by_key : Option DagsterRun)
    (run_by_id : Option DagsterRun) (run_id : String) (run_request : RunRequest) :
    GetOrCreateRunResult :=
  match existing_run_by_key.orElse (fun _ => run_by_id) with
  | some run =>
    if run.status != DagsterRunStatus.not_started then
      GetOrCreateRunResult.skipped_run run_request.run_key run
    else
      GetOrCreateRunResult.existing run
  | none =>
    GetOrCreateRunResult.created { run_id := run_id, status := DagsterRunStatus.not_started }

/-- Whether the outcome created a new run in the instance store. -/
def GetOrCreateRunResult.creates_run : GetOrCreateRunResult → Bool
  | GetOrCreateRunResult.created _ => true
  | _ => false

/-- The dynamic partitions store: the set of (definition name, partition key)
pairs currently registered, as a list (Modelled from the spec, instance store
operations has_dynamic_partition / add_dynamic_partitions /
delete_dynamic_partition of section 6). -/
structure DynamicPartitionsStore where
  partitions : List (String × String)
deriving DecidableEq

/-- Modelled from the spec: instance.has_dynamic_partition. -/
def DynamicPartitionsStore.has_dynamic_partition (s : DynamicPartitionsStore)
    (partitions_def_name : String) (partition_key : String) : Bool :=
  decide ((partitions_def_name, partition_key) ∈ s.partitions)

/-- Modelled from the spec: instance.add_dynamic_partitions registers the keys
under the definition name. -/
def DynamicPartitionsStore.add_dynamic_partitions (s : DynamicPartitionsStore)
    (partitions_def_name : String) (partition_keys : List String) :
    DynamicPartitionsStore :=
  { partitions := s.partitions ++ partition_keys.map (fun k => (partitions_def_name, k)) }

/-- Modelled from the spec: instance.delete_dynamic_partition removes one key. -/
def DynamicPartitionsStore.delete_dynamic_partition (s : DynamicPartitionsStore)
    (partitions_def_name : String) (partition_key : String) : DynamicPartitionsStore :=
  { partitions := s.partitions.filter (fun p => p != (partitions_def_name, partition_key)) }

/-- A dynamic partitions request (AddDynamicPartitionsRequest or
DeleteDynamicPartitionsRequest). -/
inductive DynamicPartitionsRequest
  | add (partitions_def_name : String) (partition_keys : List String)
  | delete (partitions_def_name : String) (partition_keys : List String)
deriving DecidableEq

/-- The definition name carried by the request. -/
def DynamicPartitionsRequest.partitions_def_name : DynamicPartitionsRequest → String
  | DynamicPartitionsRequest.add dn _ => dn
  | DynamicPartitionsRequest.delete dn _ => dn

/-- The partition keys carried by the request. -/
def DynamicPartitionsRequest.partition_keys : DynamicPartitionsRequest → List String
  | DynamicPartitionsRequest.add _ ks => ks
  | DynamicPartitionsRequest.delete _ ks => ks

/-- DynamicPartitionsRequestResult recorded on the tick for each request. -/
structure DynamicPartitionsRequestResult where
  partitions_def_name : String
  added_partitions : Option (List String)
  deleted_partitions : Option (List String)
  skipped_partitions : List String
deriving DecidableEq

/-- One iteration of the loop in _handle_dynamic_partitions_requests
(sensor.py lines 879-941): partition the requested keys into existent and
nonexistent against the current store, add only the nonexistent keys for an
add request, delete only the existent keys (serially) for a delete request,
and build the result recorded on the tick. -/
def handle_dynamic_partitions_request (store : DynamicPartitionsStore)
    (request : DynamicPartitionsRequest) :
    DynamicPartitionsStore × DynamicPartitionsRequestResult :=
  let dn := request.partitions_def_name
  let existent_partitions :=
    request.partition_keys.filter (fun k => store.has_dynamic_partition dn k)
  let nonexistent_partitions :=
    request.partition_keys.filter (fun k => !store.has_dynamic_partition dn k)
  match request with
  | DynamicPartitionsRequest.add _ _ =>
    let store1 :=
      if !nonexistent_partitions.isEmpty then
        store.add_dynamic_partitions dn nonexistent_partitions
      else store
    (store1,
      { partitions_def_name := dn
        added_partitions := some nonexistent_partitions
        deleted_partitions := none
        skipped_partitions := existent_partitions })
  | DynamicPartitionsRequest.delete _ _ =>
    let store1 :=
      existent_partitions.foldl (fun s k => s.delete_dynamic_partition dn k) store
    (store1,
      { partitions_def_name := dn
        added_partitions := none
        deleted_partitions := some existent_partitions
        skipped_partitions := nonexistent_partitions })

/-- _handle_dynamic_partitions_requests (sensor.py lines 872-941): process the
requests in order, threading the store and collecting one result per request. -/
def handle_dynamic_partitions_requests : DynamicPartitionsStore →
    List DynamicPartitionsRequest →
    DynamicPartitionsStore × List DynamicPartitionsRequestResult
  | store, [] => (store, [])
  | store, request :: rest =>
    let step := handle_dynamic_partitions_request store request
    let next := handle_dynamic_partitions_requests step.1 rest
    (next.1, step.2 :: next.2)

/-- Operations performed against the instance store by the submission phase,
in program order.  flush_tick stands for SensorLaunchContext._write (an
update_tick plus, for a finished tick, the instigator-state update);
create_run, submit_run and add_backfill are the corresponding instance calls. -/
inductive InstanceEvent
  | flush_tick (tick : TickData)
  | create_run (run_id : String)
  | submit_run (run_id : String)
  | add_backfill (backfill_id : String)
deriving DecidableEq

/-- SensorLaunchContext.set_run_requests (sensor.py lines 191-202): record the
run requests, reserved run ids and cursor on the tick, then flush immediately. -/
def set_run_requests (tick : TickData) (run_requests : List RunRequest)
    (reserved_run_ids : List String) (cursor : Option String) :
    TickData × List InstanceEvent :=
  let t := tick.with_run_requests run_requests reserved_run_ids cursor
  (t, [InstanceEvent.flush_tick t])

/-- The run slot of a SubmitRunRequestResult: a SkippedSensorRun record, a
DagsterRun, or a BackfillSubmission. -/
inductive SubmittedWork
  | skipped_sensor_run (run_key : Option String) (existing_run : DagsterRun)
  | dagster_run (run : DagsterRun)
  | backfill_submission (backfill_id : String)
deriving DecidableEq

/-- SubmitRunRequestResult (sensor.py lines 671-674); the error_info side
channel carries no tick state and is omitted. -/
structure SubmitRunRequestResult where
  run_key : Option String
  run : SubmittedWork
deriving DecidableEq

/-- The instance-store environment a submission runs against: the map built by
_fetch_existing_runs (run key to run) and the run-by-id table. -/
structure SubmitEnv where
  existing_runs_by_key : List (String × DagsterRun)
  runs_by_id : List (String × DagsterRun)
deriving DecidableEq

/-- Association-list lookup used for both run tables. -/
def lookupRun (l : List (String × DagsterRun)) (k : String) : Option DagsterRun :=
  (l.find? (fun p => p.1 == k)).map (fun p => p.2)

/-- existing_runs_by_key.get(run_request.run_key). -/
def SubmitEnv.get_existing_run (env : SubmitEnv) (run_key : Option String) :
    Option DagsterRun :=
  run_key.bind (fun k => lookupRun env.existing_runs_by_key k)

/-- instance.get_run_by_id(run_id). -/
def SubmitEnv.get_run_by_id (env : SubmitEnv) (run_id : String) : Option DagsterRun :=
  lookupRun env.runs_by_id run_id

/-- One submission (submit_run_request closure, sensor.py lines 1094-1109): a
backfill request goes to _submit_backfill_request (add_backfill with the
reserved id, sensor.py lines 1167-1186); otherwise _submit_run_request
(lines 677-737) runs the duplicate check and, unless the run is skipped,
launches via instance.submit_run; a fresh run is created first when neither
lookup found one. -/
def submit_run_request (env : SubmitEnv) (run_id : String)
    (run_request : RunRequest) : SubmitRunRequestResult × List InstanceEvent :=
  if run_request.requires_backfill_daemon then
    ({ run_key := none, run := SubmittedWork.backfill_submission run_id },
      [InstanceEvent.add_backfill run_id])
  else
    match get_or_create_sensor_run (env.get_existing_run run_request.run_key)
        (env.get_run_by_id run_id) run_id run_request with
    | GetOrCreateRunResult.skipped_run k r =>
      ({ run_key := run_request.run_key, run := SubmittedWork.skipped_sensor_run k r }, [])
    | GetOrCreateRunResult.existing r =>
      ({ run_key := run_request.run_key, run := SubmittedWork.dagster_run r },
        [InstanceEvent.submit_run r.run_id])
    | GetOrCreateRunResult.created r =>
      ({ run_key := run_request.run_key, run := SubmittedWork.dagster_run r },
        [InstanceEvent.create_run r.run_id, InstanceEvent.submit_run r.run_id])

/-- _resolve_run_requests (sensor.py lines 989-1020): tag injection does not
affect the fields modelled here; a stale_assets_only request is dropped when
the external stale resolver (stale_assets_of) returns nothing, and otherwise
has its asset selection replaced and the flag cleared. -/
def resolve_run_requests (stale_assets_of : RunRequest → List String)
    (run_ids_with_requests : List (String × RunRequest)) :
    List (String × RunRequest) :=
  run_ids_with_requests.filterMap (fun p =>
    if p.2.stale_assets_only then
      let stale_assets := stale_assets_of p.2
      if stale_assets.length = 0 then none
      else some (p.1, { p.2 with asset_selection := stale_assets, stale_assets_only := false })
    else some p)

/-- The reduction of one submission result onto the tick (the add_run_info
calls in _submit_run_requests, sensor.py lines 1129-1135). -/
def consume_submit_result (tick : TickData) (result : SubmitRunRequestResult) :
    TickData :=
  match result.run with
  | SubmittedWork.skipped_sensor_run _ _ => tick.with_run_info none result.run_key
  | SubmittedWork.backfill_submission bid => tick.with_run_info (some bid) none
  | SubmittedWork.dagster_run r => tick.with_run_info (some r.run_id) result.run_key

/-- _submit_run_requests (sensor.py lines 1077-1164): resolve the pairs,
submit each in order, and reduce the results onto the tick; the instance
events of the submissions are concatenated in order. -/
def submit_run_requests (env : SubmitEnv)
    (stale_assets_of : RunRequest → List String)
    (raw_run_ids_with_requests : List (String × RunRequest)) (tick : TickData) :
    TickData × List InstanceEvent :=
  let resolved := resolve_run_requests stale_assets_of raw_run_ids_with_requests
  let results := resolved.map (fun p => submit_run_request env p.1 p.2)
  (results.foldl (fun t r => consume_submit_result t r.1) tick,
    (results.map (fun r => r.2)).flatten)

/-- _handle_run_requests_and_automation_condition_evaluations (sensor.py lines
1023-1074): reserve the run ids, persist them with the requests and cursor
through set_run_requests (which flushes the tick), then submit.  The
automation-evaluation bookkeeping writes no tick state and is omitted. -/
def handle_run_requests_and_automation_condition_evaluations
    (tick : TickData) (raw_run_requests : List RunRequest)
    (reserved_run_ids : List String) (cursor : Option String)
    (env : SubmitEnv) (stale_assets_of : RunRequest → List String) :
    TickData × List InstanceEvent :=
  let step1 := set_run_requests tick raw_run_requests reserved_run_ids cursor
  let step2 := submit_run_requests env stale_assets_of
    (reserved_run_ids.zip raw_run_requests) step1.1
  (step2.1, step1.2 ++ step2.2)

/-! Concrete sample values used by witnesses and counterexamples. -/

/-- A fresh tick at timestamp 0. -/
def tick0 : TickData := freshTickData 0

/-- The same tick moved to FAILURE. -/
def tickF : TickData := { freshTickData 0 with status := TickStatus.failure }

/-- A sample serialized error. -/
def err0 : SerializableErrorInfo := { message := "boom" }

/-- Sample instigator data with no recorded success timestamp. -/
def sd0 : SensorInstigatorData :=
  { last_tick_timestamp := some 5
    last_run_key := some "k0"
    min_interval := some 30
    cursor := some "c0"
    last_tick_start_timestamp := some 6
    last_sensor_start_timestamp := some 1
    sensor_type := "STANDARD"
    last_tick_success_timestamp := none }

/-- Claim C8: the interval gate returns false whenever no previous tick is
recorded (no instigator data, or both last_tick_timestamp and
last_tick_start_timestamp absent in the Python-falsy sense) or no
min_interval_seconds is configured; otherwise it returns true exactly when
now - max(last_tick_timestamp, last_tick_start_timestamp) is below
min_interval_seconds (absent values defaulting to 0 inside the max, as in the
source). -/
theorem is_under_min_interval_characterization
    (instigator_data : Option SensorInstigatorData)
    (min_interval_seconds : Option Nat) (now : ℚ) :
    is_under_min_interval instigator_data min_interval_seconds now = true ↔
      ∃ d, instigator_data = some d ∧
        (optRatTruthy d.last_tick_timestamp = true ∨
          optRatTruthy d.last_tick_start_timestamp = true) ∧
        optNatTruthy min_interval_seconds = true ∧
        now - max (d.last_tick_timestamp.getD 0) (d.last_tick_start_timestamp.getD 0)
          < (min_interval_seconds.getD 0 : ℚ) := by
  cases instigator_data with
  | none => simp [is_under_min_interval]
  | some d =>
    cases h1 : optRatTruthy d.last_tick_start_timestamp <;>
      cases h2 : optRatTruthy d.last_tick_timestamp <;>
        cases h3 : optNatTruthy min_interval_seconds <;>
          simp [is_under_min_interval, h1, h2, h3]

/-- Claim C10: update_state applies each of cursor, skip_reason and
origin_run_id only when that argument is truthy, independently of the others:
whenever cursor is Python-falsy (absent or the empty string) the tick's cursor
is unchanged, whatever skip_reason and origin_run_id are, and likewise for the
other two fields -- so a sensor emitting an empty-string cursor cannot clear
or overwrite a previously stored cursor through this path, also on the
skip-message and run-reaction call sites that pass a truthy skip_reason or
origin_run_id alongside. -/
theorem update_state_ignores_falsy_kwargs (tick : TickData) (status : TickStatus)
    (skip_reason cursor origin_run_id : Option String)
    (error : Option (Option SerializableErrorInfo)) (failure_count : Option Nat) :
    (optStrTruthy cursor = false →
      (update_state tick status skip_reason cursor origin_run_id error failure_count).cursor
        = tick.cursor) ∧
    (optStrTruthy skip_reason = false →
      (update_state tick status skip_reason cursor origin_run_id error failure_count).skip_reason
        = tick.skip_reason) ∧
    (optStrTruthy origin_run_id = false →
      (update_state tick status skip_reason cursor origin_run_id error failure_count).origin_run_id
        = tick.origin_run_id) := by
  refine ⟨fun hcursor => ?_, fun hskip => ?_, fun horigin => ?_⟩ <;>
    by_cases h1 : optStrTruthy skip_reason <;>
      by_cases h2 : optStrTruthy cursor <;>
        by_cases h3 : optStrTruthy origin_run_id <;>
          simp_all [update_state, TickData.with_status, TickData.with_reason,
            TickData.with_cursor, TickData.with_origin_run]

/-- Witness for C10 at a concrete tick: an empty-string cursor passed together
with a truthy skip reason and a truthy origin run id (the skip-message and
run-reaction call-site shapes) still leaves the stored cursor unchanged. -/
theorem update_state_ignores_falsy_kwargs_witness :
    (update_state tick0 TickStatus.skipped (some "no events") (some "") (some "run-7")
        none none).cursor = tick0.cursor :=
  (update_state_ignores_falsy_kwargs tick0 TickStatus.skipped (some "no events") (some "")
    (some "run-7") none none).1 (by decide)

/-- Claim C3 counterexample: with a KeyboardInterrupt the Launch Context exit
returns before the flush (sensor.py lines 261-262), so the flush does not
occur, contradicting the claim that on a cancellation-style signal the flush
of the tick still occurs. -/
theorem sensor_exit_keyboard_interrupt_no_flush :
    ¬ ((sensor_launch_context_exit ExitExc.keyboardInterrupt err0 tick0).flushed = true) := by
  decide

/-- Claim C3 amended: on a cancellation-style exit the close records no error
and leaves failure_count untouched (the tick state is unchanged); the flush
still occurs for GeneratorExit, but not for KeyboardInterrupt, which returns
before the flush. -/
theorem sensor_exit_cancellation_amended (t : TickData) (e : SerializableErrorInfo) :
    (sensor_launch_context_exit ExitExc.keyboardInterrupt e t).tick = t ∧
    (sensor_launch_context_exit ExitExc.keyboardInterrupt e t).flushed = false ∧
    (sensor_launch_context_exit ExitExc.generatorExit e t).tick = t ∧
    (sensor_launch_context_exit ExitExc.generatorExit e t).flushed = true :=
  ⟨rfl, rfl, rfl, rfl⟩

/-- Claim C4: a user-code-server-unreachable exit finalizes the tick FAILURE
with an error recorded and failure_count unchanged; any other exception
finalizes FAILURE with failure_count incremented by one; both paths flush. -/
theorem sensor_exit_failure_count_classification (t : TickData) (e : SerializableErrorInfo) :
    (sensor_launch_context_exit ExitExc.userCodeUnreachable e t).tick.status
        = TickStatus.failure ∧
    (sensor_launch_context_exit ExitExc.userCodeUnreachable e t).tick.error = some e ∧
    (sensor_launch_context_exit ExitExc.userCodeUnreachable e t).tick.failure_count
        = t.failure_count ∧
    (sensor_launch_context_exit ExitExc.userCodeUnreachable e t).flushed = true ∧
    (sensor_launch_context_exit ExitExc.otherError e t).tick.status = TickStatus.failure ∧
    (sensor_launch_context_exit ExitExc.otherError e t).tick.error = some e ∧
    (sensor_launch_context_exit ExitExc.otherError e t).tick.failure_count
        = t.failure_count + 1 ∧
    (sensor_launch_context_exit ExitExc.otherError e t).flushed = true :=
  ⟨rfl, rfl, rfl, rfl, rfl, rfl, rfl, rfl⟩

/-- Claim C2: when a tick is finalized with status FAILURE and the
cursor-on-failure opt-in is not set, the instigator data written by the close
keeps the cursor and last_run_key of the state read at close time. -/
theorem write_failure_keeps_cursor_and_last_run_key
    (tick : TickData) (sd : SensorInstigatorData) (min_interval_seconds : Option Nat)
    (sensor_type : String) (now : ℚ)
    (hstatus : tick.status = TickStatus.failure) :
    ∃ d, write_instigator_data tick false (some sd) min_interval_seconds sensor_type now
        = some d ∧ d.cursor = sd.cursor ∧ d.last_run_key = sd.last_run_key := by
  refine ⟨_, rfl, ?_, ?_⟩ <;>
    simp [write_instigator_data, hstatus]

/-- Witness for C2 at a concrete failed tick and state. -/
theorem write_failure_keeps_cursor_and_last_run_key_witness :
    ∃ d, write_instigator_data tickF false (some sd0) (some 30) "STANDARD" 7
        = some d ∧ d.cursor = sd0.cursor ∧ d.last_run_key = sd0.last_run_key :=
  write_failure_keeps_cursor_and_last_run_key tickF sd0 (some 30) "STANDARD" 7 rfl

/-- A sample run request with a run key. -/
def req0 : RunRequest :=
  { run_key := some "k1"
    asset_selection := []
    stale_assets_only := false
    has_asset_graph_subset := false }

/-- A STARTED tick holding one unsubmitted reservation. -/
def startedTick : InstigatorTick :=
  { tick_id := 1
    tick_data := { freshTickData 0 with
      run_requests := [req0]
      reserved_run_ids := ["r1"] } }

/-- A FAILURE tick holding one unsubmitted reservation. -/
def failedTick : InstigatorTick :=
  { tick_id := 2
    tick_data := { freshTickData 0 with
      status := TickStatus.failure
      run_requests := [req0]
      reserved_run_ids := ["r1"] } }

/-- When the pre-tick instigator data records no last-tick success (in the
Python-falsy sense of sensor.py line 496), the fast path of
_get_evaluation_tick is not taken, so the selector behaves as with no
instigator data at all. -/
theorem get_evaluation_tick_no_fast_path
    (instigator_data : Option SensorInstigatorData)
    (most_recent_tick : Option InstigatorTick) (evaluation_timestamp : ℚ)
    (new_tick_id : Nat)
    (hnosuccess : optRatTruthy (instigator_data.bind
      (fun d => d.last_tick_success_timestamp)) = false) :
    get_evaluation_tick instigator_data most_recent_tick evaluation_timestamp new_tick_id
      = get_evaluation_tick none most_recent_tick evaluation_timestamp new_tick_id := by
  cases instigator_data with
  | none => rfl
  | some d =>
    have h : optRatTruthy d.last_tick_success_timestamp = false := hnosuccess
    simp only [get_evaluation_tick, h, Bool.false_eq_true, if_false]

/-- Claim C5: for a most recent tick T with status STARTED (which, for a
consistent state, entails that the pre-tick instigator data records no
last-tick success -- a non-null last_tick_success_timestamp means the previous
tick completed cleanly, spec section 3 -- stated here as hnosuccess), the
selector returns T itself exactly when T has unsubmitted reservations and
evaluation_timestamp - T.timestamp is at most MAX_TIME_TO_RESUME_TICK_SECONDS;
in every other STARTED case it persists T with status rewritten to SKIPPED and
creates and returns a fresh STARTED tick. -/
theorem started_tick_resume_iff
    (instigator_data : Option SensorInstigatorData) (t : InstigatorTick)
    (evaluation_timestamp : ℚ) (new_tick_id : Nat)
    (hnosuccess : optRatTruthy (instigator_data.bind
      (fun d => d.last_tick_success_timestamp)) = false)
    (hstatus : t.tick_data.status = TickStatus.started)
    (hfresh_id : new_tick_id ≠ t.tick_id) :
    ((get_evaluation_tick instigator_data (some t) evaluation_timestamp new_tick_id).returned
        = t ↔
      (0 < t.tick_data.unsubmitted_run_ids_with_requests.length ∧
        evaluation_timestamp - t.tick_data.timestamp ≤ MAX_TIME_TO_RESUME_TICK_SECONDS)) ∧
    (¬ (0 < t.tick_data.unsubmitted_run_ids_with_requests.length ∧
        evaluation_timestamp - t.tick_data.timestamp ≤ MAX_TIME_TO_RESUME_TICK_SECONDS) →
      get_evaluation_tick instigator_data (some t) evaluation_timestamp new_tick_id =
        { returned :=
            { tick_id := new_tick_id, tick_data := freshTickData evaluation_timestamp }
          dangling_skipped := some
            { t with tick_data :=
                t.tick_data.with_status TickStatus.skipped none none none none }
          created := some (freshTickData evaluation_timestamp) }) := by
  rw [get_evaluation_tick_no_fast_path instigator_data (some t) evaluation_timestamp
    new_tick_id hnosuccess]
  obtain ⟨tid, td⟩ := t
  simp only at hstatus hfresh_id
  by_cases h1 : evaluation_timestamp - td.timestamp ≤ MAX_TIME_TO_RESUME_TICK_SECONDS <;>
    by_cases h2 : 0 < td.unsubmitted_run_ids_with_requests.length <;>
      simp [get_evaluation_tick, hstatus, hfresh_id, h1, h2]

/-- Witness for C5 at a concrete interrupted STARTED tick with an unsubmitted
reservation, resumed 10 seconds later: the resume condition holds and the same
tick is returned. -/
theorem started_tick_resume_iff_witness :
    (get_evaluation_tick none (some startedTick) 10 99).returned = startedTick :=
  (started_tick_resume_iff none startedTick 10 99 rfl rfl (by decide)).1.mpr
    ⟨by decide, by norm_num [startedTick, freshTickData, MAX_TIME_TO_RESUME_TICK_SECONDS]⟩

/-- Claim C6: for a most recent tick T with status FAILURE (again under the
consistency hypothesis hnosuccess on the pre-tick instigator data), when
failure_count is at most MAX_FAILURE_RESUBMISSION_RETRIES and T has
unsubmitted reservations, the selector creates and returns a new tick cloning
T's tick data with status STARTED, error cleared, the evaluation timestamp and
end_timestamp cleared; in every other FAILURE case a brand-new empty STARTED
tick is created instead. -/
theorem failure_tick_retry_clone
    (instigator_data : Option SensorInstigatorData) (t : InstigatorTick)
    (evaluation_timestamp : ℚ) (new_tick_id : Nat)
    (hnosuccess : optRatTruthy (instigator_data.bind
      (fun d => d.last_tick_success_timestamp)) = false)
    (hstatus : t.tick_data.status = TickStatus.failure) :
    ((t.tick_data.failure_count ≤ MAX_FAILURE_RESUBMISSION_RETRIES ∧
        0 < t.tick_data.unsubmitted_run_ids_with_requests.length) →
      get_evaluation_tick instigator_data (some t) evaluation_timestamp new_tick_id =
        { returned :=
            { tick_id := new_tick_id
              tick_data := t.tick_data.with_status TickStatus.started (some none) none
                (some evaluation_timestamp) (some none) }
          dangling_skipped := none
          created := some (t.tick_data.with_status TickStatus.started (some none) none
            (some evaluation_timestamp) (some none)) }) ∧
    (¬ (t.tick_data.failure_count ≤ MAX_FAILURE_RESUBMISSION_RETRIES ∧
        0 < t.tick_data.unsubmitted_run_ids_with_requests.length) →
      get_evaluation_tick instigator_data (some t) evaluation_timestamp new_tick_id =
        { returned :=
            { tick_id := new_tick_id, tick_data := freshTickData evaluation_timestamp }
          dangling_skipped := none
          created := some (freshTickData evaluation_timestamp) }) := by
  rw [get_evaluation_tick_no_fast_path instigator_data (some t) evaluation_timestamp
    new_tick_id hnosuccess]
  obtain ⟨tid, td⟩ := t
  simp only at hstatus
  by_cases h1 : td.failure_count ≤ MAX_FAILURE_RESUBMISSION_RETRIES <;>
    by_cases h2 : 0 < td.unsubmitted_run_ids_with_requests.length <;>
      simp [get_evaluation_tick, hstatus, h1, h2]

/-- Witness for C6 at a concrete FAILURE tick with failure_count 0 and an
unsubmitted reservation: the retry condition holds and the selector creates a
clone of its tick data restarted at the new timestamp. -/
theorem failure_tick_retry_clone_witness :
    get_evaluation_tick none (some failedTick) 10 99 =
      { returned :=
          { tick_id := 99
            tick_data := failedTick.tick_data.with_status TickStatus.started (some none) none
              (some 10) (some none) }
        dangling_skipped := none
        created := some (failedTick.tick_data.with_status TickStatus.started (some none) none
          (some 10) (some none)) } :=
  (failure_tick_retry_clone none failedTick 10 99 rfl rfl).1 (by decide)

/-- Claim C7: the duplicate-run check.  When either lookup (by run key, then
by reserved run id) finds an existing run: a run whose status is not
NOT_STARTED yields a SkippedSensorRun record and no new run is created; a
NOT_STARTED run is returned itself so the launch can be retried, again with no
creation; only when both lookups miss is a new NOT_STARTED run created under
the reserved id -- so the function never creates a run for a key that already
has one. -/
theorem get_or_create_sensor_run_cases
    (existing_run_by_key run_by_id : Option DagsterRun) (run_id : String)
    (run_request : RunRequest) :
    (∀ r, existing_run_by_key.orElse (fun _ => run_by_id) = some r →
      (r.status ≠ DagsterRunStatus.not_started →
        get_or_create_sensor_run existing_run_by_key run_by_id run_id run_request =
          GetOrCreateRunResult.skipped_run run_request.run_key r) ∧
      (r.status = DagsterRunStatus.not_started →
        get_or_create_sensor_run existing_run_by_key run_by_id run_id run_request =
          GetOrCreateRunResult.existing r) ∧
      (get_or_create_sensor_run existing_run_by_key run_by_id run_id run_request).creates_run
        = false) ∧
    (existing_run_by_key.orElse (fun _ => run_by_id) = none →
      get_or_create_sensor_run existing_run_by_key run_by_id run_id run_request =
        GetOrCreateRunResult.created
          { run_id := run_id, status := DagsterRunStatus.not_started }) := by
  cases hfound : existing_run_by_key.orElse (fun _ => run_by_id) with
  | none =>
    refine ⟨fun r hr => by simp [hfound] at hr, fun _ => ?_⟩
    simp [get_or_create_sensor_run, hfound]
  | some r0 =>
    refine ⟨fun r hr => ?_, fun hn => by simp [hfound] at hn⟩
    injection hr with hr
    subst hr
    by_cases hs : r0.status = DagsterRunStatus.not_started <;>
      simp [get_or_create_sensor_run, hfound, hs, GetOrCreateRunResult.creates_run]

/-- A pre-existing run for run key k1 that is already past NOT_STARTED. -/
def runE1 : DagsterRun := { run_id := "e1", status := DagsterRunStatus.started }

/-- Witness for C7: with an already-launched run found under the run key, the
call returns a SkippedSensorRun and creates nothing. -/
theorem get_or_create_sensor_run_cases_witness :
    get_or_create_sensor_run (some runE1) none "r1" req0 =
      GetOrCreateRunResult.skipped_run (some "k1") runE1 ∧
    (get_or_create_sensor_run (some runE1) none "r1" req0).creates_run = false :=
  ⟨((get_or_create_sensor_run_cases (some runE1) none "r1" req0).1 runE1 rfl).1 (by decide),
    ((get_or_create_sensor_run_cases (some runE1) none "r1" req0).1 runE1 rfl).2.2⟩

/-- Membership after add_dynamic_partitions. -/
theorem has_dynamic_partition_add (s : DynamicPartitionsStore) (dn : String)
    (l : List String) (d k : String) :
    (s.add_dynamic_partitions dn l).has_dynamic_partition d k = true ↔
      (s.has_dynamic_partition d k = true ∨ (d = dn ∧ k ∈ l)) := by
  simp only [DynamicPartitionsStore.has_dynamic_partition,
    DynamicPartitionsStore.add_dynamic_partitions, decide_eq_true_eq,
    List.mem_append, List.mem_map, Prod.mk.injEq]
  constructor
  · rintro (h | ⟨x, hx, hdn, hk⟩)
    · exact Or.inl h
    · exact Or.inr ⟨hdn.symm, hk ▸ hx⟩
  · rintro (h | ⟨hdn, hk⟩)
    · exact Or.inl h
    · exact Or.inr ⟨k, hk, hdn.symm, rfl⟩

/-- Membership after one delete_dynamic_partition. -/
theorem has_dynamic_partition_delete (s : DynamicPartitionsStore) (dn k0 d k : String) :
    (s.delete_dynamic_partition dn k0).has_dynamic_partition d k = true ↔
      (s.has_dynamic_partition d k = true ∧ ¬ (d = dn ∧ k = k0)) := by
  simp only [DynamicPartitionsStore.has_dynamic_partition,
    DynamicPartitionsStore.delete_dynamic_partition, decide_eq_true_eq,
    List.mem_filter, bne_iff_ne, Ne, Prod.mk.injEq]

/-- Membership after serially deleting a list of keys. -/
theorem has_dynamic_partition_delete_fold (l : List String) (s : DynamicPartitionsStore)
    (dn d k : String) :
    (l.foldl (fun acc k0 => acc.delete_dynamic_partition dn k0) s).has_dynamic_partition d k
        = true ↔
      (s.has_dynamic_partition d k = true ∧ ¬ (d = dn ∧ k ∈ l)) := by
  induction l generalizing s with
  | nil => simp
  | cons x xs ih =>
    rw [List.foldl_cons, ih, has_dynamic_partition_delete]
    simp only [List.mem_cons]
    tauto

/-- Store membership after handling an add request: exactly the requested keys
become present under the definition name, everything else is untouched. -/
theorem handle_add_store_spec (store : DynamicPartitionsStore) (dn : String)
    (keys : List String) (d k : String) :
    (handle_dynamic_partitions_request store
        (DynamicPartitionsRequest.add dn keys)).1.has_dynamic_partition d k = true ↔
      (store.has_dynamic_partition d k = true ∨ (d = dn ∧ k ∈ keys)) := by
  simp only [handle_dynamic_partitions_request, DynamicPartitionsRequest.partitions_def_name,
    DynamicPartitionsRequest.partition_keys]
  by_cases hne : (keys.filter (fun x => !store.has_dynamic_partition dn x)).isEmpty
  · have hnil := List.isEmpty_iff.mp hne
    have hall : ∀ x ∈ keys, store.has_dynamic_partition dn x = true := by
      intro x hx
      have := List.filter_eq_nil_iff.mp hnil x hx
      simpa using this
    simp only [hne, Bool.not_true, Bool.false_eq_true, if_false]
    constructor
    · exact Or.inl
    · rintro (h | ⟨rfl, hk⟩)
      · exact h
      · exact hall k hk
  · simp only [hne, Bool.not_false, if_true, has_dynamic_partition_add]
    constructor
    · rintro (h | ⟨rfl, hk⟩)
      · exact Or.inl h
      · exact Or.inr ⟨rfl, (List.mem_filter.mp hk).1⟩
    · rintro (h | ⟨rfl, hk⟩)
      · exact Or.inl h
      · by_cases hs : store.has_dynamic_partition d k = true
        · exact Or.inl hs
        · refine Or.inr ⟨rfl, List.mem_filter.mpr ⟨hk, ?_⟩⟩
          cases hb : store.has_dynamic_partition d k with
          | false => simp [hb]
          | true => exact absurd hb hs
  

/-- Store membership after handling a delete request: exactly the requested
keys are removed under the definition name, everything else is untouched. -/
theorem handle_delete_store_spec (store : DynamicPartitionsStore) (dn : String)
    (keys : List String) (d k : String) :
    (handle_dynamic_partitions_request store
        (DynamicPartitionsRequest.delete dn keys)).1.has_dynamic_partition d k = true ↔
      (store.has_dynamic_partition d k = true ∧ ¬ (d = dn ∧ k ∈ keys)) := by
  simp only [handle_dynamic_partitions_request, DynamicPartitionsRequest.partitions_def_name,
    DynamicPartitionsRequest.partition_keys]
  rw [has_dynamic_partition_delete_fold]
  constructor
  · rintro ⟨h1, h2⟩
    refine ⟨h1, fun hdk => h2 ⟨hdk.1, ?_⟩⟩
    obtain ⟨rfl, hk⟩ := hdk
    exact List.mem_filter.mpr ⟨hk, h1⟩
  · rintro ⟨h1, h2⟩
    exact ⟨h1, fun hdk => h2 ⟨hdk.1, (List.mem_filter.mp hdk.2).1⟩⟩

/-- An add request whose keys are all already present leaves the store
untouched. -/
theorem handle_add_noop (s : DynamicPartitionsStore) (dn : String) (keys : List String)
    (hall : ∀ x ∈ keys, s.has_dynamic_partition dn x = true) :
    (handle_dynamic_partitions_request s (DynamicPartitionsRequest.add dn keys)).1 = s := by
  have hfilter : keys.filter (fun x => !s.has_dynamic_partition dn x) = [] := by
    rw [List.filter_eq_nil_iff]
    intro x hx
    simp [hall x hx]
  simp [handle_dynamic_partitions_request, DynamicPartitionsRequest.partitions_def_name,
    DynamicPartitionsRequest.partition_keys, hfilter]

/-- A delete request whose keys are all absent leaves the store untouched. -/
theorem handle_delete_noop (s : DynamicPartitionsStore) (dn : String) (keys : List String)
    (hall : ∀ x ∈ keys, s.has_dynamic_partition dn x = false) :
    (handle_dynamic_partitions_request s (DynamicPartitionsRequest.delete dn keys)).1 = s := by
  have hfilter : keys.filter (fun x => s.has_dynamic_partition dn x) = [] := by
    rw [List.filter_eq_nil_iff]
    intro x hx
    simp [hall x hx]
  simp [handle_dynamic_partitions_request, DynamicPartitionsRequest.partitions_def_name,
    DynamicPartitionsRequest.partition_keys, hfilter]

/-- One result is recorded per processed request. -/
theorem handle_dynamic_partitions_requests_length (store : DynamicPartitionsStore)
    (requests : List DynamicPartitionsRequest) :
    (handle_dynamic_partitions_requests store requests).2.length = requests.length := by
  induction requests generalizing store with
  | nil => rfl
  | cons r rs ih => simp [handle_dynamic_partitions_requests, ih]

/-- Claim C9: the handler splits the requested keys into existent and
nonexistent against the current store; an add request makes present exactly
the union of the old store and the requested keys (adding only nonexistent
ones), a delete request removes exactly the requested keys (deleting only
existent ones), both are idempotent at the store level, and a
DynamicPartitionsRequestResult with the definition name, added, deleted and
skipped keys is recorded for every processed request, no-ops included. -/
theorem dynamic_partitions_requests_spec (store : DynamicPartitionsStore) (dn : String)
    (keys : List String) (requests : List DynamicPartitionsRequest) :
    ((handle_dynamic_partitions_request store (DynamicPartitionsRequest.add dn keys)).2 =
      { partitions_def_name := dn
        added_partitions := some (keys.filter (fun x => !store.has_dynamic_partition dn x))
        deleted_partitions := none
        skipped_partitions := keys.filter (fun x => store.has_dynamic_partition dn x) }) ∧
    ((handle_dynamic_partitions_request store (DynamicPartitionsRequest.delete dn keys)).2 =
      { partitions_def_name := dn
        added_partitions := none
        deleted_partitions := some (keys.filter (fun x => store.has_dynamic_partition dn x))
        skipped_partitions := keys.filter (fun x => !store.has_dynamic_partition dn x) }) ∧
    (∀ d k, (handle_dynamic_partitions_request store
        (DynamicPartitionsRequest.add dn keys)).1.has_dynamic_partition d k = true ↔
      (store.has_dynamic_partition d k = true ∨ (d = dn ∧ k ∈ keys))) ∧
    (∀ d k, (handle_dynamic_partitions_request store
        (DynamicPartitionsRequest.delete dn keys)).1.has_dynamic_partition d k = true ↔
      (store.has_dynamic_partition d k = true ∧ ¬ (d = dn ∧ k ∈ keys))) ∧
    ((handle_dynamic_partitions_request
        (handle_dynamic_partitions_request store (DynamicPartitionsRequest.add dn keys)).1
        (DynamicPartitionsRequest.add dn keys)).1 =
      (handle_dynamic_partitions_request store (DynamicPartitionsRequest.add dn keys)).1) ∧
    ((handle_dynamic_partitions_request
        (handle_dynamic_partitions_request store (DynamicPartitionsRequest.delete dn keys)).1
        (DynamicPartitionsRequest.delete dn keys)).1 =
      (handle_dynamic_partitions_request store (DynamicPartitionsRequest.delete dn keys)).1) ∧
    ((handle_dynamic_partitions_requests store requests).2.length = requests.length) := by
  refine ⟨rfl, rfl, handle_add_store_spec store dn keys,
    handle_delete_store_spec store dn keys, ?_, ?_,
    handle_dynamic_partitions_requests_length store requests⟩
  · refine handle_add_noop _ dn keys (fun x hx => ?_)
    exact (handle_add_store_spec store dn keys dn x).mpr (Or.inr ⟨rfl, hx⟩)
  · refine handle_delete_noop _ dn keys (fun x hx => ?_)
    cases hb : (handle_dynamic_partitions_request store
        (DynamicPartitionsRequest.delete dn keys)).1.has_dynamic_partition dn x with
    | false => rfl
    | true =>
      exact absurd ((handle_delete_store_spec store dn keys dn x).mp hb).2
        (fun h => h ⟨rfl, hx⟩)

/-- The submission phase never flushes the tick: every instance event emitted
by submit_run_requests is a run creation, a run submission or a backfill. -/
theorem submit_run_requests_no_flush (env : SubmitEnv)
    (stale_assets_of : RunRequest → List String)
    (pairs : List (String × RunRequest)) (tick : TickData) (t : TickData) :
    InstanceEvent.flush_tick t ∉ (submit_run_requests env stale_assets_of pairs tick).2 := by
  intro hmem
  simp only [submit_run_requests, List.mem_flatten, List.mem_map] at hmem
  obtain ⟨l, ⟨res, ⟨p, hp, rfl⟩, rfl⟩, hev⟩ := hmem
  rcases p with ⟨rid, req⟩
  by_cases hb : req.requires_backfill_daemon = true
  · simp [submit_run_request, hb] at hev
  · cases hg : get_or_create_sensor_run (env.get_existing_run req.run_key)
        (env.get_run_by_id rid) rid req with
    | skipped_run k r => simp [submit_run_request, hb, hg] at hev
    | existing r => simp [submit_run_request, hb, hg] at hev
    | created r => simp [submit_run_request, hb, hg] at hev

/-- Reducing one submission result onto the tick grows run_ids by at most one. -/
theorem consume_submit_result_run_ids_length (tick : TickData)
    (res : SubmitRunRequestResult) :
    (consume_submit_result tick res).run_ids.length ≤ tick.run_ids.length + 1 := by
  rcases res with ⟨rk, w⟩
  rcases w with ⟨k, r⟩ | r | bid <;>
    simp [consume_submit_result, TickData.with_run_info]

/-- Folding the submission results onto the tick grows run_ids by at most the
number of results. -/
theorem foldl_consume_run_ids_length
    (results : List (SubmitRunRequestResult × List InstanceEvent)) (tick : TickData) :
    (results.foldl (fun t r => consume_submit_result t r.1) tick).run_ids.length ≤
      tick.run_ids.length + results.length := by
  induction results generalizing tick with
  | nil => simp
  | cons r rs ih =>
    simp only [List.foldl_cons, List.length_cons]
    have h1 := ih (consume_submit_result tick r.1)
    have h2 := consume_submit_result_run_ids_length tick r.1
    omega

/-- Claim C1 amended: set_run_requests flushes the tick carrying the run
requests, the reserved run ids and the cursor before any run or backfill
submission is attempted (the flush is the first instance event of the
submission phase and no further tick flush occurs inside it), and a tick
entering the phase with empty run_ids ends it with at most
length reserved_run_ids entries in run_ids.  The containment of run_ids in
reserved_run_ids claimed alongside does not hold in general (see the
counterexample): adopting a pre-existing NOT_STARTED run found by run key
records that run's id, which was reserved by an earlier tick. -/
theorem set_run_requests_flushes_before_submission
    (tick : TickData) (raw_run_requests : List RunRequest)
    (reserved_run_ids : List String) (cursor : Option String)
    (env : SubmitEnv) (stale_assets_of : RunRequest → List String)
    (hempty : tick.run_ids = []) :
    (handle_run_requests_and_automation_condition_evaluations tick raw_run_requests
        reserved_run_ids cursor env stale_assets_of).2 =
      InstanceEvent.flush_tick
          (tick.with_run_requests raw_run_requests reserved_run_ids cursor) ::
        (submit_run_requests env stale_assets_of (reserved_run_ids.zip raw_run_requests)
          (tick.with_run_requests raw_run_requests reserved_run_ids cursor)).2 ∧
    (∀ t, InstanceEvent.flush_tick t ∉
      (submit_run_requests env stale_assets_of (reserved_run_ids.zip raw_run_requests)
        (tick.with_run_requests raw_run_requests reserved_run_ids cursor)).2) ∧
    (handle_run_requests_and_automation_condition_evaluations tick raw_run_requests
        reserved_run_ids cursor env stale_assets_of).1.run_ids.length ≤
      reserved_run_ids.length := by
  refine ⟨rfl, fun t => submit_run_requests_no_flush env stale_assets_of _ _ t, ?_⟩
  have hrun : (tick.with_run_requests raw_run_requests reserved_run_ids cursor).run_ids
      = [] := hempty
  have hb := foldl_consume_run_ids_length
    ((resolve_run_requests stale_assets_of (reserved_run_ids.zip raw_run_requests)).map
      (fun p => submit_run_request env p.1 p.2))
    (tick.with_run_requests raw_run_requests reserved_run_ids cursor)
  rw [hrun] at hb
  simp only [List.length_nil, Nat.zero_add] at hb
  have hlen1 : ((resolve_run_requests stale_assets_of
      (reserved_run_ids.zip raw_run_requests)).map
        (fun p => submit_run_request env p.1 p.2)).length ≤ reserved_run_ids.length := by
    rw [List.length_map]
    calc (resolve_run_requests stale_assets_of
          (reserved_run_ids.zip raw_run_requests)).length
        ≤ (reserved_run_ids.zip raw_run_requests).length := List.length_filterMap_le _ _
      _ ≤ reserved_run_ids.length := by
          rw [List.length_zip]; omega
  show (((resolve_run_requests stale_assets_of
      (reserved_run_ids.zip raw_run_requests)).map
        (fun p => submit_run_request env p.1 p.2)).foldl
      (fun t r => consume_submit_result t r.1)
      (tick.with_run_requests raw_run_requests reserved_run_ids cursor)).run_ids.length ≤
    reserved_run_ids.length
  omega

/-- An empty submission environment. -/
def env0 : SubmitEnv := { existing_runs_by_key := [], runs_by_id := [] }

/-- Witness for the amended C1 at a fresh tick with one reserved run id. -/
theorem set_run_requests_flushes_before_submission_witness :
    (handle_run_requests_and_automation_condition_evaluations tick0 [req0] ["r1"]
        (some "c1") env0 (fun _ => [])).2 =
      InstanceEvent.flush_tick (tick0.with_run_requests [req0] ["r1"] (some "c1")) ::
        (submit_run_requests env0 (fun _ => []) (["r1"].zip [req0])
          (tick0.with_run_requests [req0] ["r1"] (some "c1"))).2 ∧
    (handle_run_requests_and_automation_condition_evaluations tick0 [req0] ["r1"]
        (some "c1") env0 (fun _ => [])).1.run_ids.length ≤ (["r1"] : List String).length :=
  ⟨(set_run_requests_flushes_before_submission tick0 [req0] ["r1"] (some "c1") env0
      (fun _ => []) rfl).1,
    (set_run_requests_flushes_before_submission tick0 [req0] ["r1"] (some "c1") env0
      (fun _ => []) rfl).2.2⟩

/-- An instance environment holding a NOT_STARTED run e1 recorded under run
key k1, left over from an earlier tick whose launch crashed. -/
def envK1 : SubmitEnv :=
  { existing_runs_by_key :=
      [("k1", { run_id := "e1", status := DagsterRunStatus.not_started })]
    runs_by_id := [] }

/-- A fresh tick reserving r1 for run key k1 processed against envK1, then
finalized SUCCESS and flushed by the Launch Context close. -/
def c1_final : ExitResult :=
  sensor_launch_context_exit ExitExc.noExc err0
    (update_state
      (handle_run_requests_and_automation_condition_evaluations (freshTickData 0) [req0]
        ["r1"] (some "c1") envK1 (fun _ => [])).1
      TickStatus.success none (some "c1") none none none)

/-- Claim C1 counterexample: a persisted tick in a terminal state whose
run_ids is not contained in its reserved_run_ids.  The run-key duplicate check
finds the leftover NOT_STARTED run e1 and returns it for a launch retry, so
the tick records run id e1 while its reservation list is [r1]. -/
theorem run_ids_subset_reserved_counterexample :
    c1_final.flushed = true ∧
    c1_final.tick.status = TickStatus.success ∧
    c1_final.tick.reserved_run_ids = ["r1"] ∧
    c1_final.tick.run_ids = ["e1"] ∧
    ¬ (∀ rid ∈ c1_final.tick.run_ids, rid ∈ c1_final.tick.reserved_run_ids) := by
  decide
